import Mathlib

/-
Shallow embedding of the planner synchronization engine:
  - app/services/microsoft_api.py   (remote API gateway, retry/backoff)
  - app/services/planner_sync.py    (reconciler, enrichment, metrics, orchestrator)
  - app/models.py                   (Task / Planner / User records and enums)

Modelling conventions:
  - datetimes are modelled as integers (instants); the Python code parses
    ISO-8601 strings with `datetime.fromisoformat` and only compares them,
    so a payload timestamp field is `Option DateTime` (none = key absent
    or null, mirroring `dict.get` falsiness for missing date strings);
  - Python dicts keyed by remote string ids are association lists;
  - the SQLAlchemy session is explicit state (a working list of rows plus
    a committed snapshot; `commit` copies working state to the snapshot);
  - a Python `raise` that a claim depends on is an `Except`/flag value.
-/

set_option autoImplicit false

namespace PlannerApp

/-- Instants (parsed datetimes) are integers; only their ordering matters. -/
abbrev DateTime := Int

/-- models.py `TaskStatus` enum (lines 10-15). -/
inductive TaskStatus where
  | NOT_STARTED
  | IN_PROGRESS
  | COMPLETED
  | OVERDUE
  | BLOCKED
deriving DecidableEq, Repr

/-- models.py `TaskPriority` enum. -/
inductive TaskPriority where
  | LOW
  | MEDIUM
  | HIGH
  | URGENT
deriving DecidableEq, Repr

/-- One entry of a remote `assignments` payload.  planner_sync.py reads only
`assignedDateTime` and `orderHint` from it; a remote entry may additionally
carry fallback display fields, which we keep in the model so that statements
about whether the code consults them can be made. -/
structure AssignInfo where
  assignedDateTime : Option String := none
  orderHint : Option String := none
  fallbackDisplayName : Option String := none
  fallbackEmail : Option String := none
deriving DecidableEq, Repr

/-- The enriched assignment entry written by `_enrich_task_assignees`
(planner_sync.py lines 423-428).  `userEmail` is `Option String` because a
resolved local User may have a null email column. -/
structure EnrichedAssign where
  assignedDateTime : String
  orderHint : String
  userDisplayName : String
  userEmail : Option String
deriving DecidableEq, Repr

/-- `Task.assignments_json` stores an opaque JSON blob; depending on which
code path last wrote it, it holds either raw remote entries
(`task.set_assignments(task_data['assignments'])`) or enriched entries. -/
inductive AssignVal where
  | raw (i : AssignInfo)
  | enriched (e : EnrichedAssign)
deriving DecidableEq, Repr

/-- A remote task payload, with exactly the keys planner_sync.py reads.
`none` / `[]` model an absent key (Python `dict.get` falsiness). -/
structure TaskData where
  id : String
  title : Option String := none
  startDateTime : Option DateTime := none
  dueDateTime : Option DateTime := none
  completedDateTime : Option DateTime := none
  createdDateTime : Option DateTime := none
  percentComplete : Option Int := none
  bucketId : Option String := none
  assignments : List (String × AssignInfo) := []
  appliedCategories : List (String × Bool) := []
  priority : Option Int := none
deriving DecidableEq, Repr

/-- models.py `Task` (lines 220-262), restricted to the columns the sync
engine reads or writes.  Column defaults from the model are record defaults. -/
structure Task where
  id : String
  planner_id : String
  bucket_id : Option String := none
  title : String := ""
  start_date : Option DateTime := none
  due_date : Option DateTime := none
  completed_date : Option DateTime := none
  created_date : Option DateTime := none
  percent_complete : Int := 0
  status : TaskStatus := TaskStatus.NOT_STARTED
  priority : TaskPriority := TaskPriority.MEDIUM
  is_overdue : Bool := false
  is_blocked : Bool := false
  labels : List String := []
  assignments : List (String × AssignVal) := []
deriving DecidableEq, Repr

/-- planner_sync.py `_update_task_from_data`, lines 240-258: title, dates,
progress, bucket.  `task_data.get('title', task.title)` keeps the old title
when the key is absent; a date field is overwritten only when present;
`percentComplete` defaults to 0. -/
def updateBasicFields (task : Task) (d : TaskData) : Task :=
  let t := { task with title := d.title.getD task.title }
  let t := match d.startDateTime with
    | some s => { t with start_date := some s }
    | none => t
  let t := match d.dueDateTime with
    | some s => { t with due_date := some s }
    | none => t
  let t := { t with percent_complete := d.percentComplete.getD 0 }
  match d.bucketId with
  | some b => { t with bucket_id := some b }
  | none => t

/-- planner_sync.py `_update_task_from_data`, lines 260-275: completion
timestamp handling followed by the unconditional percent-based status
derivation.  Note the source first assigns `status = COMPLETED` when
`completedDateTime` is present and then falls through to the percent
branch, which reassigns the status. -/
def updateCompletedAndStatus (task : Task) (d : TaskData) : Task :=
  let t := match d.completedDateTime with
    | some c => { task with completed_date := some c, status := TaskStatus.COMPLETED }
    | none => { task with completed_date := none }
  if t.percent_complete = 100 ∧ t.completed_date = none then
    { t with status := TaskStatus.COMPLETED }
  else if t.percent_complete > 0 then
    { t with status := TaskStatus.IN_PROGRESS }
  else
    { t with status := TaskStatus.NOT_STARTED }

/-- planner_sync.py `_update_task_from_data`, lines 277-284: the overdue
override pass (the inner `status != COMPLETED` re-check of line 281 is kept
although it is implied by the outer condition). -/
def updateOverdue (task : Task) (now : DateTime) : Task :=
  match task.due_date with
  | some due =>
    if due < now ∧ task.status ≠ TaskStatus.COMPLETED then
      let t := { task with is_overdue := true }
      if t.status ≠ TaskStatus.COMPLETED then
        { t with status := TaskStatus.OVERDUE }
      else t
    else { task with is_overdue := false }
  | none => { task with is_overdue := false }

/-- mapping of remote numeric priority to the local enum, as written inline
at planner_sync.py lines 299-307 and again at lines 321-329. -/
def mapMsPriority (ms : Int) : TaskPriority :=
  if ms ≥ 9 then TaskPriority.URGENT
  else if ms ≥ 7 then TaskPriority.HIGH
  else if ms ≥ 4 then TaskPriority.MEDIUM
  else TaskPriority.LOW

/-- planner_sync.py `_update_task_from_data`, lines 286-307: assignments
(written raw when the payload has a non-empty map), label derivation from
`appliedCategories`, and the priority mapping. -/
def updateAssignLabelsPriority (task : Task) (d : TaskData) : Task :=
  let t := if d.assignments ≠ [] then
      { task with assignments := d.assignments.map (fun p => (p.1, AssignVal.raw p.2)) }
    else task
  let t := if d.appliedCategories ≠ [] then
      { t with labels := (d.appliedCategories.filter (fun c => c.2)).map (fun c => c.1) }
    else t
  { t with priority := mapMsPriority (d.priority.getD 0) }

/-- planner_sync.py `_update_task_from_data` (lines 237-307), as the
sequence of its four statement blocks. -/
def update_task_from_data (task : Task) (d : TaskData) (now : DateTime) : Task :=
  updateAssignLabelsPriority (updateOverdue (updateCompletedAndStatus (updateBasicFields task d) d) now) d

/-- planner_sync.py `_create_task_from_data`, lines 311-363: initial
status (giving precedence to `completedDateTime`), priority, the `Task`
constructor, assignments and labels.  `is_overdue` starts at the model
column default `false`. -/
def createBaseTask (d : TaskData) (planner_id : String) (now : DateTime) : Task :=
  let initial_status :=
    if d.completedDateTime.isSome then TaskStatus.COMPLETED
    else if d.percentComplete.getD 0 = 100 then TaskStatus.COMPLETED
    else if d.percentComplete.getD 0 > 0 then TaskStatus.IN_PROGRESS
    else TaskStatus.NOT_STARTED
  let priority := mapMsPriority (d.priority.getD 0)
  let task : Task :=
    { id := d.id
      planner_id := planner_id
      bucket_id := d.bucketId
      title := d.title.getD ""
      percent_complete := d.percentComplete.getD 0
      status := initial_status
      priority := priority
      start_date := d.startDateTime
      due_date := d.dueDateTime
      completed_date := d.completedDateTime
      created_date := some (d.createdDateTime.getD now) }
  let task := if d.assignments ≠ [] then
      { task with assignments := d.assignments.map (fun p => (p.1, AssignVal.raw p.2)) }
    else task
  let task := if d.appliedCategories ≠ [] then
      { task with labels := (d.appliedCategories.filter (fun c => c.2)).map (fun c => c.1) }
    else task
  task

/-- planner_sync.py `_create_task_from_data`, lines 365-368: the final
overdue check (no else branch; the flag keeps its column default). -/
def createOverdueCheck (task : Task) (now : DateTime) : Task :=
  match task.due_date with
  | some due =>
    if due < now ∧ task.status ≠ TaskStatus.COMPLETED then
      { task with is_overdue := true, status := TaskStatus.OVERDUE }
    else task
  | none => task

/-- planner_sync.py `_create_task_from_data` (lines 309-370), as the
sequence of its statement blocks. -/
def create_task_from_data (d : TaskData) (planner_id : String) (now : DateTime) : Task :=
  createOverdueCheck (createBaseTask d planner_id now) now

/-! Remote API gateway: microsoft_api.py `make_request` (lines 21-87). -/

/-- Outcome of one HTTP attempt, as the gateway classifies it: a decoded
2xx payload, a 204, a `RequestException` carrying a response status, a
timeout without response, or another connection-level failure. -/
inductive HttpOutcome (α : Type) where
  | success (payload : α)
  | noContent
  | httpError (status : Nat)
  | timeout
  | connFailure
deriving DecidableEq, Repr

/-- Value returned by `make_request`: decoded JSON, `True` for 204, or
`None` (the no-result signal). -/
inductive ApiResult (α : Type) where
  | payload (a : α)
  | ok204
  | noResult
deriving DecidableEq, Repr

/-- Severity of a log entry emitted by the gateway. -/
inductive LogLevel where
  | debug
  | info
  | warning
  | error
deriving DecidableEq, Repr

/-- microsoft_api.py lines 46-74: which failures set `should_retry`. -/
def isTransient {α : Type} : HttpOutcome α → Bool
  | HttpOutcome.httpError s => s == 429 || s == 502 || s == 503 || s == 504
  | HttpOutcome.timeout => true
  | _ => false

/-- Log entries emitted for one failed attempt, microsoft_api.py lines
48-77: transient statuses log a warning (line 61) plus, when the status is
not 502 or 404, the response-text error entry of line 70; a 404 logs only a
debug entry (line 64); other statuses log the error of line 66 plus that of
line 70; a timeout logs a warning (line 75); other connection failures log
an error (line 77). -/
def failureLogs {α : Type} : HttpOutcome α → List LogLevel
  | HttpOutcome.httpError s =>
    if s == 429 || s == 502 || s == 503 || s == 504 then
      if s == 502 then [LogLevel.warning] else [LogLevel.warning, LogLevel.error]
    else if s == 404 then [LogLevel.debug]
    else [LogLevel.error, LogLevel.error]
  | HttpOutcome.timeout => [LogLevel.warning]
  | HttpOutcome.connFailure => [LogLevel.error]
  | _ => []

/-- microsoft_api.py lines 17-19: `max_retries = 3`, `retry_delay = 2`. -/
structure GatewayConfig where
  max_retries : Nat := 3
  retry_delay : Nat := 2
deriving DecidableEq, Repr

/-- microsoft_api.py `make_request` (lines 21-87).  `outcomes n` is what the
n-th HTTP attempt produces (the call is re-issued on retry, so attempt
number equals the `retry_count` argument of the recursive call).  Returns
the result together with the sequence of backoff waits slept (line 82-84:
`wait_time = retry_delay * retry_count` after incrementing) and the log
entries emitted. -/
def make_request {α : Type} (cfg : GatewayConfig) (outcomes : Nat → HttpOutcome α)
    (retry_count : Nat) : ApiResult α × List Nat × List LogLevel :=
  match outcomes retry_count with
  | HttpOutcome.success a => (ApiResult.payload a, [], [])
  | HttpOutcome.noContent => (ApiResult.ok204, [], [])
  | o =>
    let should_retry := isTransient o
    let logs := failureLogs o
    if _h : should_retry = true ∧ retry_count < cfg.max_retries then
      let rc := retry_count + 1
      let wait_time := cfg.retry_delay * rc
      let r := make_request cfg outcomes rc
      (r.1, wait_time :: r.2.1, logs ++ LogLevel.info :: r.2.2)
    else
      (ApiResult.noResult, [], logs)
termination_by cfg.max_retries - retry_count
decreasing_by omega

/-! Identity enrichment: planner_sync.py `_enrich_task_assignees`
(lines 372-435) and the local User cache (models.py lines 44-64). -/

/-- models.py `User`, restricted to the columns enrichment writes or
reads. -/
structure User where
  azure_id : String
  email : Option String := none
  display_name : String := ""
  job_title : Option String := none
  department : Option String := none
  phone : Option String := none
  is_active : Bool := true
deriving DecidableEq, Repr

/-- A directory (`/users/{id}`) payload, with the keys enrichment reads. -/
structure UserData where
  displayName : Option String := none
  mail : Option String := none
  userPrincipalName : Option String := none
  jobTitle : Option String := none
  department : Option String := none
  mobilePhone : Option String := none
  businessPhones : List String := []
deriving DecidableEq, Repr

/-- planner_sync.py lines 391-406: build the local User row from directory
data (email prefers `mail` over `userPrincipalName`; phone prefers
`mobilePhone` over the first business phone; sync-created users start
inactive). -/
def buildUserFromData (azure_id : String) (ud : UserData) : User :=
  let phone := match ud.mobilePhone with
    | some p => some p
    | none => ud.businessPhones.head?
  { azure_id := azure_id
    email := match ud.mail with
      | some m => some m
      | none => ud.userPrincipalName
    display_name := ud.displayName.getD "Usuário"
    job_title := ud.jobTitle
    department := ud.department
    phone := phone
    is_active := false }

/-- Result of `User.query.filter_by(azure_id=...).first()` (line 383): a
row, no row, or the query itself raising (e.g. a database error). -/
inductive LookupResult where
  | found (u : User)
  | missing
  | raised
deriving DecidableEq, Repr

/-- Result of `self.api.get_user_details(user_id)` (line 388): a payload,
the gateway's `None` (404 or abandoned call), or a raised exception
(absorbed by the inner `except` of lines 414-420). -/
inductive UserDetailsResult where
  | ok (d : UserData)
  | noResult
  | raised
deriving DecidableEq, Repr

/-- The external world one enrichment call interacts with. -/
structure EnrichEnv where
  lookupUser : String → LookupResult
  get_user_details : String → UserDetailsResult

/-- Session/stat effects of enrichment that persist independently of the
task record: User rows added via `db.session.add` (line 407) and the
`users_enriched` counter of `sync_stats` (line 408). -/
structure EnrichState where
  newUsers : List User := []
  users_enriched : Nat := 0
deriving DecidableEq, Repr

/-- planner_sync.py lines 422-428: the rewritten assignment entry.  Only
`assignedDateTime` and `orderHint` are read from the remote entry; the
display name and email come from the resolved User when one is available
and are otherwise the literal removed-user marker and the empty string. -/
def mkEnrichedEntry (info : AssignInfo) (user : Option User) : EnrichedAssign :=
  { assignedDateTime := info.assignedDateTime.getD ""
    orderHint := info.orderHint.getD ""
    userDisplayName := match user with
      | some u => u.display_name
      | none => "Usuário (Removido)"
    userEmail := match user with
      | some u => u.email
      | none => some "" }

/-- The body of the `for user_id, assignment_info in assignments.items()`
loop (planner_sync.py lines 381-428), inside the outer `try` of line 377.
A raised cache lookup escapes to the outer `except` (`Except.error`),
discarding the enriched map built so far but keeping session/stat effects
already performed; a failed or empty directory lookup is absorbed (inner
`try`/`except`, lines 387-420) and the loop continues with no User. -/
def enrichLoop (env : EnrichEnv) :
    List (String × AssignInfo) → EnrichState →
    Except Unit (List (String × EnrichedAssign)) × EnrichState
  | [], st => (Except.ok [], st)
  | (user_id, info) :: rest, st =>
    match env.lookupUser user_id with
    | LookupResult.raised => (Except.error (), st)
    | LookupResult.found u =>
      let e := mkEnrichedEntry info (some u)
      let r := enrichLoop env rest st
      (r.1.map (fun m => (user_id, e) :: m), r.2)
    | LookupResult.missing =>
      let resolved : Option User × EnrichState :=
        match env.get_user_details user_id with
        | UserDetailsResult.ok ud =>
          let u := buildUserFromData user_id ud
          (some u, { newUsers := st.newUsers ++ [u], users_enriched := st.users_enriched + 1 })
        | UserDetailsResult.noResult => (none, st)
        | UserDetailsResult.raised => (none, st)
      let e := mkEnrichedEntry info resolved.1
      let r := enrichLoop env rest resolved.2
      (r.1.map (fun m => (user_id, e) :: m), r.2)

/-- planner_sync.py `_enrich_task_assignees` (lines 372-435).  The outer
`except` (line 434) only logs, so the function always returns; the task's
assignment map is rewritten only when the loop completed and produced a
non-empty map (line 431). -/
def enrich_task_assignees (env : EnrichEnv) (task : Task) (d : TaskData)
    (st : EnrichState) : Task × EnrichState :=
  match enrichLoop env d.assignments st with
  | (Except.ok m, st1) =>
    (if m ≠ [] then
      { task with assignments := m.map (fun p => (p.1, AssignVal.enriched p.2)) }
     else task, st1)
  | (Except.error _, st1) => (task, st1)

/-- The local User that the loop body of `_enrich_task_assignees` ends up
holding for one assignee id: the cached row when the lookup finds one,
else a row built from a successful directory payload, else none. -/
def resolvedUser (env : EnrichEnv) (user_id : String) : Option User :=
  match env.lookupUser user_id with
  | LookupResult.found u => some u
  | LookupResult.missing =>
    match env.get_user_details user_id with
    | UserDetailsResult.ok ud => some (buildUserFromData user_id ud)
    | _ => none
  | LookupResult.raised => none

/-! Metrics aggregator: planner_sync.py `_update_planner_metrics`
(lines 437-450), over models.py `Planner` (lines 141-163). -/

/-- models.py `Planner`, restricted to the columns the sync engine
touches. -/
structure Planner where
  id : String
  group_id : String := ""
  title : String := ""
  created_date : Option DateTime := none
  last_sync : Option DateTime := none
  total_tasks : Nat := 0
  completed_tasks : Nat := 0
  in_progress_tasks : Nat := 0
  not_started_tasks : Nat := 0
  overdue_tasks : Nat := 0
  blocked_tasks : Nat := 0
deriving DecidableEq, Repr

/-- planner_sync.py `_update_planner_metrics` (lines 437-450): a full scan
of `Task.query.filter_by(planner_id=planner.id)` over the task table
`store`, rewriting the six counters (`sum(1 for t in tasks if ...)`). -/
def update_planner_metrics (store : List Task) (planner : Planner) : Planner :=
  let tasks := store.filter (fun t => t.planner_id == planner.id)
  { planner with
    total_tasks := tasks.length
    completed_tasks := tasks.countP (fun t => t.status == TaskStatus.COMPLETED)
    in_progress_tasks := tasks.countP (fun t => t.status == TaskStatus.IN_PROGRESS)
    not_started_tasks := tasks.countP (fun t => t.status == TaskStatus.NOT_STARTED)
    overdue_tasks := tasks.countP (fun t => t.is_overdue)
    blocked_tasks := tasks.countP (fun t => t.is_blocked) }

/-! Task sync pass: the per-task loop of planner_sync.py
`sync_planner_tasks` (lines 148-165). -/

/-- `sync_stats` (planner_sync.py lines 15-21); the `users_enriched` slot
is threaded separately through `EnrichState`. -/
structure SyncStats where
  groups : Nat := 0
  planners : Nat := 0
  tasks : Nat := 0
  errors : Nat := 0
deriving DecidableEq, Repr

/-- `Task.query.get(task_data['id'])` (line 150) over the task table. -/
def findTaskById (store : List Task) (id : String) : Option Task :=
  store.find? (fun t => t.id == id)

/-- Replacing an existing row's state in the session: mutating the object
returned by `Task.query.get` updates that row in place. -/
def storePutTask (store : List Task) (t : Task) : List Task :=
  store.map (fun x => if x.id == t.id then t else x)

/-- The body of the `for task_data in tasks_data['value']` loop
(planner_sync.py lines 148-161): update the row found by remote id, or
create and add a new one, then enrich its assignees; `tasks` stat
incremented. -/
def syncOneTask (env : EnrichEnv) (planner_id : String) (now : DateTime)
    (acc : List Task × SyncStats × EnrichState) (d : TaskData) :
    List Task × SyncStats × EnrichState :=
  let (store, stats, est) := acc
  match findTaskById store d.id with
  | some task =>
    let t := update_task_from_data task d now
    let r := enrich_task_assignees env t d est
    (storePutTask store r.1, { stats with tasks := stats.tasks + 1 }, r.2)
  | none =>
    let t := create_task_from_data d planner_id now
    let r := enrich_task_assignees env t d est
    (store ++ [r.1], { stats with tasks := stats.tasks + 1 }, r.2)

/-- One pass of the task loop of `sync_planner_tasks` over a page of
remote payloads. -/
def sync_planner_tasks_loop (env : EnrichEnv) (planner_id : String) (now : DateTime)
    (payloads : List TaskData) (store : List Task) (stats : SyncStats)
    (est : EnrichState) : List Task × SyncStats × EnrichState :=
  payloads.foldl (syncOneTask env planner_id now) (store, stats, est)

/-! Plan-level orchestration: planner_sync.py `sync_group_planners`
(lines 114-138) and the planner upsert of `_sync_planner`
(lines 179-209). -/

/-- A remote ISO-8601 date string: either parses to an instant or is
malformed (`datetime.fromisoformat` raises `ValueError`). -/
inductive DateTok where
  | valid (t : DateTime)
  | malformed
deriving DecidableEq, Repr

/-- `datetime.fromisoformat(s.replace('Z', '+00:00'))`. -/
def parseIso : DateTok → Except Unit DateTime
  | DateTok.valid t => Except.ok t
  | DateTok.malformed => Except.error ()

/-- A remote plan payload, with the keys `_sync_planner` reads. -/
structure PlannerData where
  id : String
  title : Option String := none
  createdDateTime : Option DateTok := none
deriving DecidableEq, Repr

/-- `Planner.query.get` over the planner table. -/
def findPlannerById (store : List Planner) (id : String) : Option Planner :=
  store.find? (fun p => p.id == id)

/-- Upsert of a planner row into the session's working list. -/
def putPlanner (store : List Planner) (p : Planner) : List Planner :=
  if store.any (fun x => x.id == p.id) then
    store.map (fun x => if x.id == p.id then p else x)
  else store ++ [p]

/-- The planner upsert of `_sync_planner` (planner_sync.py lines 181-203).
The bucket and task sub-syncs called afterwards catch all their own
exceptions, so the upsert is the raise source seen by the loop in
`sync_group_planners`.  Returns the session's working list after the call
and whether it raised.  Python object mutation is immediately visible in
the session, so in the update path the title assignment of line 185
persists even when the `fromisoformat` call of line 188 then raises; in
the create path the constructor argument (line 197) raises before
`db.session.add`, leaving no partial row. -/
def sync_planner_step (live : List Planner) (pd : PlannerData) (group_id : String)
    (now : DateTime) : List Planner × Bool :=
  match findPlannerById live pd.id with
  | some planner =>
    let p1 := { planner with title := pd.title.getD planner.title }
    let live1 := putPlanner live p1
    match pd.createdDateTime with
    | some tok =>
      match parseIso tok with
      | Except.ok t =>
        (putPlanner live1 { p1 with created_date := some t, last_sync := some now }, false)
      | Except.error _ => (live1, true)
    | none => (putPlanner live1 { p1 with last_sync := some now }, false)
  | none =>
    match pd.createdDateTime with
    | some tok =>
      match parseIso tok with
      | Except.ok t =>
        (live ++ [{ id := pd.id, group_id := group_id, title := pd.title.getD ""
                    created_date := some t, last_sync := some now }], false)
      | Except.error _ => (live, true)
    | none =>
      (live ++ [{ id := pd.id, group_id := group_id, title := pd.title.getD ""
                  created_date := none, last_sync := some now }], false)

/-- The SQLAlchemy session over the planner table: the working list that
queries and mutations see, plus the last committed snapshot.
`db.session.commit()` copies the working list to the snapshot. -/
structure PlannerSession where
  live : List Planner
  committed : List Planner
deriving DecidableEq, Repr

/-- `db.session.commit()`. -/
def commitPlanners (s : PlannerSession) : PlannerSession :=
  { s with committed := s.live }

/-- One iteration of the loop of `sync_group_planners` (planner_sync.py
lines 124-129): `_sync_planner` inside `try` — on success the `planners`
stat is incremented, on a raise the `errors` stat is incremented and the
session keeps whatever mutations the call made before raising. -/
def sync_group_planners_step (group_id : String) (now : DateTime)
    (acc : PlannerSession × SyncStats) (pd : PlannerData) : PlannerSession × SyncStats :=
  let r := sync_planner_step acc.1.live pd group_id now
  if r.2 then
    ({ acc.1 with live := r.1 }, { acc.2 with errors := acc.2.errors + 1 })
  else
    ({ acc.1 with live := r.1 }, { acc.2 with planners := acc.2.planners + 1 })

/-- The loop of `sync_group_planners` (planner_sync.py lines 123-131):
one `sync_group_planners_step` per payload, the loop continuing with the
next sibling after a caught raise, followed by the single
`db.session.commit()` of line 131.  No rollback is issued anywhere in the
sync service, so session mutations made before a raise are committed
together with the siblings. -/
def sync_group_planners_loop (payloads : List PlannerData) (group_id : String)
    (now : DateTime) (sess : PlannerSession) (stats : SyncStats) :
    PlannerSession × SyncStats :=
  let out := payloads.foldl (sync_group_planners_step group_id now) (sess, stats)
  (commitPlanners out.1, out.2)

/-! Concrete inputs used by witnesses, counterexamples and scenario
conjuncts. -/

/-- A remote task payload carrying both a completion timestamp and a
completion percentage of 100, as the Graph service reports for a completed
task. -/
def dCompleted : TaskData := { id := "t1", completedDateTime := some 50, percentComplete := some 100 }

/-- A pre-existing local row for the same remote id. -/
def tPrior : Task := { id := "t1", planner_id := "p" }

/-- An enrichment environment where every assignee is absent from the local
cache and the directory lookup comes back 404 (the gateway's no-result). -/
def envAbsent : EnrichEnv :=
  { lookupUser := fun _ => LookupResult.missing
    get_user_details := fun _ => UserDetailsResult.noResult }

/-- An enrichment environment whose local-cache lookup raises. -/
def envRaise : EnrichEnv :=
  { lookupUser := fun _ => LookupResult.raised
    get_user_details := fun _ => UserDetailsResult.noResult }

/-- A payload whose single assignment entry carries fallback display
fields. -/
def dAssigned : TaskData :=
  { id := "t1"
    assignments := [("u1",
      { assignedDateTime := some "2024-01-01T00:00:00Z"
        orderHint := some "8585"
        fallbackDisplayName := some "Alice Smith"
        fallbackEmail := some "alice@example.com" })] }

/-- Three pre-existing planner rows. -/
def rowA : Planner := { id := "A", title := "oldA" }

def rowB : Planner := { id := "B", title := "oldB" }

def rowC : Planner := { id := "C", title := "oldC" }

/-- Three sibling plan payloads: B's `createdDateTime` is malformed, so its
upsert raises after the title assignment. -/
def pdA : PlannerData := { id := "A", title := some "newA" }

def pdB : PlannerData := { id := "B", title := some "newB", createdDateTime := some DateTok.malformed }

def pdC : PlannerData := { id := "C", title := some "newC" }

/-- A session in which all three rows are already committed. -/
def sessABC : PlannerSession :=
  { live := [rowA, rowB, rowC], committed := [rowA, rowB, rowC] }

/-- A task row owned by plan P with the given status and overdue flag. -/
def mkMetricTask (i : String) (st : TaskStatus) (od : Bool) : Task :=
  { id := i, planner_id := "P", status := st, is_overdue := od }

/-- The §8 metrics scenario: ten tasks owned by plan P (4 COMPLETED,
2 OVERDUE with the overdue flag, 1 IN_PROGRESS, 3 NOT_STARTED) plus one
task owned by another plan, which the scan must ignore. -/
def metricsTasks : List Task :=
  [mkMetricTask "1" TaskStatus.COMPLETED false, mkMetricTask "2" TaskStatus.COMPLETED false,
   mkMetricTask "3" TaskStatus.COMPLETED false, mkMetricTask "4" TaskStatus.COMPLETED false,
   mkMetricTask "5" TaskStatus.OVERDUE true, mkMetricTask "6" TaskStatus.OVERDUE true,
   mkMetricTask "7" TaskStatus.IN_PROGRESS false,
   mkMetricTask "8" TaskStatus.NOT_STARTED false, mkMetricTask "9" TaskStatus.NOT_STARTED false,
   mkMetricTask "10" TaskStatus.NOT_STARTED false,
   { id := "x", planner_id := "Q", status := TaskStatus.IN_PROGRESS }]

/-- Whether the planner upsert of `_sync_planner` raises on a payload: the
only raise source is `datetime.fromisoformat` on a malformed
`createdDateTime`, in both the update path (line 188) and the create path
(line 197). -/
def upsertRaises (pd : PlannerData) : Bool :=
  pd.createdDateTime == some DateTok.malformed

/-- The §8 scenario payload: completion percentage 100, no completion
timestamp, due date in the past (now = 0). -/
def dDueStale : TaskData := { id := "t1", percentComplete := some 100, dueDateTime := some (-1) }

/-- The §8 overdue-override scenario payload: completion percentage 50 and
a due date in the past (now = 0). -/
def dOverdue : TaskData := { id := "t1", percentComplete := some 50, dueDateTime := some (-1) }

/-- A pre-existing row with title and all three date fields populated. -/
def tFull : Task :=
  { id := "t1", planner_id := "p", title := "Old title"
    start_date := some 1, due_date := some 2, completed_date := some 3 }

/-- A payload carrying only the remote id. -/
def dEmpty : TaskData := { id := "t1" }

/-- First reconciliation pass of `dCompleted` against an empty store. -/
def passOne : List Task × SyncStats × EnrichState :=
  sync_planner_tasks_loop envAbsent "p" 0 [dCompleted] [] {} {}

/-- Second reconciliation pass of the same payload against the store the
first pass produced. -/
def passTwo : List Task × SyncStats × EnrichState :=
  sync_planner_tasks_loop envAbsent "p" 0 [dCompleted] passOne.1 {} {}

/-- Three transient outcomes (429, 503, a timeout) followed by a success. -/
def outsRecover : Nat → HttpOutcome Nat := fun n =>
  if n = 0 then HttpOutcome.httpError 429
  else if n = 1 then HttpOutcome.httpError 503
  else if n = 2 then HttpOutcome.timeout
  else HttpOutcome.success 7

/-- A transient outcome on every attempt. -/
def outsAlwaysBusy : Nat → HttpOutcome Nat := fun _ => HttpOutcome.httpError 503

/-- A 404 on every attempt. -/
def outs404 : Nat → HttpOutcome Nat := fun _ => HttpOutcome.httpError 404

/-! Theorems.  Helper lemmas first, then one named theorem per claim
(with its witness or counterexample where required). -/

theorem make_request_success {α : Type} (cfg : GatewayConfig) (outcomes : Nat → HttpOutcome α)
    (rc : Nat) (a : α) (h : outcomes rc = HttpOutcome.success a) :
    make_request cfg outcomes rc = (ApiResult.payload a, [], []) := by
  rw [make_request.eq_def, h]

theorem make_request_transient_step {α : Type} (cfg : GatewayConfig)
    (outcomes : Nat → HttpOutcome α) (rc : Nat)
    (ht : isTransient (outcomes rc) = true) (hlt : rc < cfg.max_retries) :
    make_request cfg outcomes rc =
      ((make_request cfg outcomes (rc + 1)).1,
       cfg.retry_delay * (rc + 1) :: (make_request cfg outcomes (rc + 1)).2.1,
       failureLogs (outcomes rc) ++ LogLevel.info :: (make_request cfg outcomes (rc + 1)).2.2) := by
  rw [make_request.eq_def]
  cases ho : outcomes rc with
  | success a => rw [ho] at ht; simp [isTransient] at ht
  | noContent => rw [ho] at ht; simp [isTransient] at ht
  | httpError s =>
    rw [ho] at ht
    simp [ht, hlt, ho]
  | timeout =>
    rw [ho] at ht
    simp [ht, hlt, ho]
  | connFailure => rw [ho] at ht; simp [isTransient] at ht

theorem make_request_exhausted {α : Type} (cfg : GatewayConfig)
    (outcomes : Nat → HttpOutcome α) (rc : Nat)
    (ht : isTransient (outcomes rc) = true) (hge : ¬ rc < cfg.max_retries) :
    make_request cfg outcomes rc = (ApiResult.noResult, [], failureLogs (outcomes rc)) := by
  rw [make_request.eq_def]
  cases ho : outcomes rc with
  | success a => rw [ho] at ht; simp [isTransient] at ht
  | noContent => rw [ho] at ht; simp [isTransient] at ht
  | httpError s =>
    rw [ho] at ht
    simp only [ho]
    rw [dif_neg]
    simp [hge]
  | timeout =>
    rw [ho] at ht
    simp only [ho]
    rw [dif_neg]
    simp [hge]
  | connFailure => rw [ho] at ht; simp [isTransient] at ht

theorem make_request_404 {α : Type} (cfg : GatewayConfig) (outcomes : Nat → HttpOutcome α)
    (rc : Nat) (h : outcomes rc = HttpOutcome.httpError 404) :
    make_request cfg outcomes rc = (ApiResult.noResult, [], [LogLevel.debug]) := by
  rw [make_request.eq_def, h]
  rfl

theorem make_request_waits_length {α : Type} (cfg : GatewayConfig)
    (outcomes : Nat → HttpOutcome α) (rc : Nat) :
    (make_request cfg outcomes rc).2.1.length ≤ cfg.max_retries - rc := by
  generalize hn : cfg.max_retries - rc = n
  induction n generalizing rc with
  | zero =>
    rw [make_request.eq_def]
    split
    · simp
    · simp
    · rw [dif_neg]
      · simp
      · intro hc
        omega
  | succ n ih =>
    rw [make_request.eq_def]
    split
    · simp
    · simp
    · dsimp only
      split
      · rename_i o heq hc
        have hrec := ih (rc + 1) (by omega)
        simp only [List.length_cons]
        omega
      · simp

/-- C4: for every gateway call (default bound of 3 retries, base delay
`del`), a transient outcome (429, 502, 503, 504 or a timeout) is retried at
most 3 times after the first attempt, the wait before retry k is `del * k`
(ratio 1:2:3), and a 4th consecutive transient failure makes the call
return the no-result signal with no 4th retry. -/
theorem gateway_linear_backoff_bounded (del : Nat) (p : Nat)
    (outs4 outsF : Nat → HttpOutcome Nat)
    (h0 : isTransient (outs4 0) = true) (h1 : isTransient (outs4 1) = true)
    (h2 : isTransient (outs4 2) = true) (h3 : outs4 3 = HttpOutcome.success p)
    (g0 : isTransient (outsF 0) = true) (g1 : isTransient (outsF 1) = true)
    (g2 : isTransient (outsF 2) = true) (g3 : isTransient (outsF 3) = true) :
    (make_request { max_retries := 3, retry_delay := del } outs4 0).1 = ApiResult.payload p ∧
    (make_request { max_retries := 3, retry_delay := del } outs4 0).2.1 = [del * 1, del * 2, del * 3] ∧
    (make_request { max_retries := 3, retry_delay := del } outsF 0).1 = ApiResult.noResult ∧
    (make_request { max_retries := 3, retry_delay := del } outsF 0).2.1 = [del * 1, del * 2, del * 3] ∧
    (∀ outs : Nat → HttpOutcome Nat,
      (make_request { max_retries := 3, retry_delay := del } outs 0).2.1.length ≤ 3) := by
  have e3 := make_request_success { max_retries := 3, retry_delay := del } outs4 3 p h3
  have e2 := make_request_transient_step { max_retries := 3, retry_delay := del } outs4 2 h2 (by norm_num)
  rw [e3] at e2
  have e1 := make_request_transient_step { max_retries := 3, retry_delay := del } outs4 1 h1 (by norm_num)
  rw [e2] at e1
  have e0 := make_request_transient_step { max_retries := 3, retry_delay := del } outs4 0 h0 (by norm_num)
  rw [e1] at e0
  have f3 := make_request_exhausted { max_retries := 3, retry_delay := del } outsF 3 g3 (by norm_num)
  have f2 := make_request_transient_step { max_retries := 3, retry_delay := del } outsF 2 g2 (by norm_num)
  rw [f3] at f2
  have f1 := make_request_transient_step { max_retries := 3, retry_delay := del } outsF 1 g1 (by norm_num)
  rw [f2] at f1
  have f0 := make_request_transient_step { max_retries := 3, retry_delay := del } outsF 0 g0 (by norm_num)
  rw [f1] at f0
  refine ⟨?_, ?_, ?_, ?_, ?_⟩
  · rw [e0]
  · rw [e0]
  · rw [f0]
  · rw [f0]
  · intro outs
    exact le_trans (make_request_waits_length { max_retries := 3, retry_delay := del } outs 0)
      (by norm_num)

/-- C4 witness: three 429/503/timeout failures then a success yield the
payload after waits 2, 4, 6; four consecutive transient failures yield the
no-result signal after the same three waits. -/
theorem gateway_linear_backoff_bounded_witness :
    (make_request { max_retries := 3, retry_delay := 2 } outsRecover 0).1 = ApiResult.payload 7 ∧
    (make_request { max_retries := 3, retry_delay := 2 } outsRecover 0).2.1 = [2, 4, 6] ∧
    (make_request { max_retries := 3, retry_delay := 2 } outsAlwaysBusy 0).1 = ApiResult.noResult ∧
    (make_request { max_retries := 3, retry_delay := 2 } outsAlwaysBusy 0).2.1 = [2, 4, 6] ∧
    (∀ outs : Nat → HttpOutcome Nat,
      (make_request { max_retries := 3, retry_delay := 2 } outs 0).2.1.length ≤ 3) :=
  gateway_linear_backoff_bounded 2 7 outsRecover outsAlwaysBusy
    rfl rfl rfl rfl rfl rfl rfl rfl

/-- C6: an HTTP 404 response is never retried (no backoff wait occurs) and
is not logged at error level (only a debug entry is emitted); the call
returns the no-result signal immediately. -/
theorem gateway_404_no_retry {α : Type} (cfg : GatewayConfig)
    (outcomes : Nat → HttpOutcome α) (h : outcomes 0 = HttpOutcome.httpError 404) :
    make_request cfg outcomes 0 = (ApiResult.noResult, [], [LogLevel.debug]) ∧
    LogLevel.error ∉ (make_request cfg outcomes 0).2.2 := by
  have e := make_request_404 cfg outcomes 0 h
  refine ⟨e, ?_⟩
  rw [e]
  show LogLevel.error ∉ [LogLevel.debug]
  decide

/-- C6 witness: a concrete call whose first attempt yields 404. -/
theorem gateway_404_no_retry_witness :
    make_request {} outs404 0 = (ApiResult.noResult, [], [LogLevel.debug]) ∧
    LogLevel.error ∉ (make_request ({} : GatewayConfig) outs404 0).2.2 :=
  gateway_404_no_retry {} outs404 rfl

theorem updateBasicFields_spec (t : Task) (d : TaskData) :
    (updateBasicFields t d).title = d.title.getD t.title ∧
    (updateBasicFields t d).start_date = d.startDateTime.or t.start_date ∧
    (updateBasicFields t d).due_date = d.dueDateTime.or t.due_date ∧
    (updateBasicFields t d).percent_complete = d.percentComplete.getD 0 ∧
    (updateBasicFields t d).completed_date = t.completed_date ∧
    (updateBasicFields t d).status = t.status ∧
    (updateBasicFields t d).is_overdue = t.is_overdue := by
  unfold updateBasicFields
  rcases d.startDateTime with _ | s <;> rcases d.dueDateTime with _ | u <;>
    rcases d.bucketId with _ | b <;> simp

theorem updateCompletedAndStatus_spec (t : Task) (d : TaskData) :
    (updateCompletedAndStatus t d).completed_date = d.completedDateTime ∧
    (updateCompletedAndStatus t d).due_date = t.due_date ∧
    (updateCompletedAndStatus t d).start_date = t.start_date ∧
    (updateCompletedAndStatus t d).title = t.title ∧
    (updateCompletedAndStatus t d).percent_complete = t.percent_complete ∧
    (updateCompletedAndStatus t d).status =
      (if t.percent_complete = 100 ∧ d.completedDateTime = none then TaskStatus.COMPLETED
       else if t.percent_complete > 0 then TaskStatus.IN_PROGRESS
       else TaskStatus.NOT_STARTED) := by
  unfold updateCompletedAndStatus
  rcases d.completedDateTime with _ | c <;> dsimp only <;> split_ifs <;> simp_all

theorem updateOverdue_frame (t : Task) (now : DateTime) :
    (updateOverdue t now).due_date = t.due_date ∧
    (updateOverdue t now).completed_date = t.completed_date ∧
    (updateOverdue t now).start_date = t.start_date ∧
    (updateOverdue t now).title = t.title ∧
    (updateOverdue t now).percent_complete = t.percent_complete := by
  unfold updateOverdue
  split
  · split
    · dsimp only
      split <;> simp
    · simp
  · simp

theorem updateOverdue_spec (t : Task) (now : DateTime) :
    ((updateOverdue t now).is_overdue = true ↔
      (∃ due, t.due_date = some due ∧ due < now ∧ t.status ≠ TaskStatus.COMPLETED)) ∧
    ((updateOverdue t now).is_overdue = true →
      (updateOverdue t now).status = TaskStatus.OVERDUE) ∧
    ((updateOverdue t now).is_overdue = false →
      (updateOverdue t now).status = t.status) := by
  unfold updateOverdue
  split
  · rename_i due heq
    split
    · rename_i hc
      dsimp only
      split
      · simp [heq, hc]
      · rename_i hns
        simp at hns
        exact absurd hns hc.2
    · rename_i hc
      simp only [not_and, not_lt] at hc
      constructor
      · simp only [show ({ t with is_overdue := false } : Task).is_overdue = false from rfl]
        constructor
        · intro h
          simp at h
        · rintro ⟨due2, hd2, hlt2, hne2⟩
          rw [heq] at hd2
          injection hd2 with hd2
          subst hd2
          exact absurd hne2 (hc hlt2)
      · constructor
        · intro h
          simp at h
        · intro _
          rfl
  · rename_i heq
    simp [heq]

theorem updateAssignLabelsPriority_frame (t : Task) (d : TaskData) :
    (updateAssignLabelsPriority t d).status = t.status ∧
    (updateAssignLabelsPriority t d).is_overdue = t.is_overdue ∧
    (updateAssignLabelsPriority t d).due_date = t.due_date ∧
    (updateAssignLabelsPriority t d).completed_date = t.completed_date ∧
    (updateAssignLabelsPriority t d).start_date = t.start_date ∧
    (updateAssignLabelsPriority t d).title = t.title ∧
    (updateAssignLabelsPriority t d).percent_complete = t.percent_complete := by
  unfold updateAssignLabelsPriority
  dsimp only
  split <;> split <;> simp

theorem updateOverdue_final_iff (b : Task) (now : DateTime) :
    ((updateOverdue b now).is_overdue = true ↔
      (∃ due, (updateOverdue b now).due_date = some due ∧ due < now ∧
        (updateOverdue b now).status ≠ TaskStatus.COMPLETED)) ∧
    ((updateOverdue b now).is_overdue = true →
      (updateOverdue b now).status = TaskStatus.OVERDUE) := by
  obtain ⟨hiff, hov, hnov⟩ := updateOverdue_spec b now
  obtain ⟨hdue, -⟩ := updateOverdue_frame b now
  refine ⟨⟨?_, ?_⟩, hov⟩
  · intro h
    obtain ⟨due, hd, hlt, hne⟩ := hiff.mp h
    refine ⟨due, by rw [hdue]; exact hd, hlt, ?_⟩
    rw [hov h]
    simp
  · rintro ⟨due, hd, hlt, hne⟩
    rcases hb : (updateOverdue b now).is_overdue with _ | _
    · rw [hnov hb] at hne
      rw [hdue] at hd
      exact absurd (hiff.mpr ⟨due, hd, hlt, hne⟩) (by simp [hb])
    · rfl

theorem createBaseTask_is_overdue (d : TaskData) (pid : String) (now : DateTime) :
    (createBaseTask d pid now).is_overdue = false := by
  unfold createBaseTask
  dsimp only
  split <;> split <;> rfl

theorem createOverdueCheck_spec (b : Task) (now : DateTime) (hb : b.is_overdue = false) :
    ((createOverdueCheck b now).is_overdue = true ↔
      (∃ due, (createOverdueCheck b now).due_date = some due ∧ due < now ∧
        (createOverdueCheck b now).status ≠ TaskStatus.COMPLETED)) ∧
    ((createOverdueCheck b now).is_overdue = true →
      (createOverdueCheck b now).status = TaskStatus.OVERDUE) := by
  unfold createOverdueCheck
  split
  · rename_i due heq
    split
    · rename_i hc
      refine ⟨⟨fun _ => ⟨due, by simp [heq], hc.1, by simp⟩, fun _ => rfl⟩, fun _ => rfl⟩
    · rename_i hc
      simp only [not_and] at hc
      refine ⟨⟨fun h => absurd h (by simp [hb]), ?_⟩, fun h => absurd h (by simp [hb])⟩
      rintro ⟨due2, hd2, hlt2, hne2⟩
      rw [heq] at hd2
      injection hd2 with hd2
      subst hd2
      exact absurd hne2 (hc hlt2)
  · refine ⟨⟨fun h => absurd h (by simp [hb]), ?_⟩, fun h => absurd h (by simp [hb])⟩
    rename_i heq
    rintro ⟨due2, hd2, -, -⟩
    rw [heq] at hd2
    exact absurd hd2 (by simp)

/-- C5: for every reconciled task, on both the update and the create path,
the overdue flag ends true iff the task has a due date in the past
relative to now and the resulting status is not COMPLETED, and whenever
the flag is true the status has been overridden to OVERDUE; in particular
the payload with percentComplete 100, no completion timestamp and a past
due date yields status COMPLETED with the overdue flag false. -/
theorem overdue_flag_consistent :
    (∀ (t : Task) (d : TaskData) (now : DateTime),
      ((update_task_from_data t d now).is_overdue = true ↔
        (∃ due, (update_task_from_data t d now).due_date = some due ∧ due < now ∧
          (update_task_from_data t d now).status ≠ TaskStatus.COMPLETED)) ∧
      ((update_task_from_data t d now).is_overdue = true →
        (update_task_from_data t d now).status = TaskStatus.OVERDUE)) ∧
    (∀ (d : TaskData) (pid : String) (now : DateTime),
      ((create_task_from_data d pid now).is_overdue = true ↔
        (∃ due, (create_task_from_data d pid now).due_date = some due ∧ due < now ∧
          (create_task_from_data d pid now).status ≠ TaskStatus.COMPLETED)) ∧
      ((create_task_from_data d pid now).is_overdue = true →
        (create_task_from_data d pid now).status = TaskStatus.OVERDUE)) ∧
    ((update_task_from_data tPrior dDueStale 0).status = TaskStatus.COMPLETED ∧
     (update_task_from_data tPrior dDueStale 0).is_overdue = false ∧
     (create_task_from_data dDueStale "p" 0).status = TaskStatus.COMPLETED ∧
     (create_task_from_data dDueStale "p" 0).is_overdue = false) := by
  refine ⟨?_, ?_, by decide⟩
  · intro t d now
    unfold update_task_from_data
    obtain ⟨hst, hov, hdue, -⟩ :=
      updateAssignLabelsPriority_frame
        (updateOverdue (updateCompletedAndStatus (updateBasicFields t d) d) now) d
    obtain ⟨hiff, hover⟩ :=
      updateOverdue_final_iff (updateCompletedAndStatus (updateBasicFields t d) d) now
    constructor
    · rw [hov, hst, hdue]
      exact hiff
    · intro h
      rw [hov] at h
      rw [hst]
      exact hover h
  · intro d pid now
    unfold create_task_from_data
    exact createOverdueCheck_spec (createBaseTask d pid now) now
      (createBaseTask_is_overdue d pid now)

/-- C5 witness: an in-progress payload with a past due date ends OVERDUE
with the flag set, on both paths, instantiating the override implications
at a concrete input. -/
theorem overdue_flag_consistent_witness :
    (update_task_from_data tPrior dOverdue 0).status = TaskStatus.OVERDUE ∧
    (create_task_from_data dOverdue "p" 0).status = TaskStatus.OVERDUE :=
  ⟨(overdue_flag_consistent.1 tPrior dOverdue 0).2 (by decide),
   (overdue_flag_consistent.2.1 dOverdue "p" 0).2 (by decide)⟩

/-- C10: when an existing task is updated, a payload missing
`startDateTime` or `dueDateTime` keeps the stored start and due dates, a
missing `title` keeps the old title, and a missing `completedDateTime`
always resets the stored completed date to none. -/
theorem update_field_clearing (t : Task) (d : TaskData) (now : DateTime)
    (h1 : d.startDateTime = none) (h2 : d.dueDateTime = none)
    (h3 : d.title = none) (h4 : d.completedDateTime = none) :
    (update_task_from_data t d now).start_date = t.start_date ∧
    (update_task_from_data t d now).due_date = t.due_date ∧
    (update_task_from_data t d now).title = t.title ∧
    (update_task_from_data t d now).completed_date = none := by
  unfold update_task_from_data
  obtain ⟨-, -, hdue, hcomp, hstart, htitle, -⟩ :=
    updateAssignLabelsPriority_frame
      (updateOverdue (updateCompletedAndStatus (updateBasicFields t d) d) now) d
  obtain ⟨hdue2, hcomp2, hstart2, htitle2, -⟩ :=
    updateOverdue_frame (updateCompletedAndStatus (updateBasicFields t d) d) now
  obtain ⟨hcomp3, hdue3, hstart3, htitle3, -, -⟩ :=
    updateCompletedAndStatus_spec (updateBasicFields t d) d
  obtain ⟨htitle4, hstart4, hdue4, -, -, -, -⟩ := updateBasicFields_spec t d
  refine ⟨?_, ?_, ?_, ?_⟩
  · rw [hstart, hstart2, hstart3, hstart4, h1]
    rfl
  · rw [hdue, hdue2, hdue3, hdue4, h2]
    rfl
  · rw [htitle, htitle2, htitle3, htitle4, h3]
    rfl
  · rw [hcomp, hcomp2, hcomp3, h4]

/-- C10 witness: a payload carrying only the remote id leaves the stored
title and start/due dates of a fully populated row unchanged while
resetting the completed date. -/
theorem update_field_clearing_witness :
    (update_task_from_data tFull dEmpty 0).start_date = tFull.start_date ∧
    (update_task_from_data tFull dEmpty 0).due_date = tFull.due_date ∧
    (update_task_from_data tFull dEmpty 0).title = tFull.title ∧
    (update_task_from_data tFull dEmpty 0).completed_date = none :=
  update_field_clearing tFull dEmpty 0 rfl rfl rfl rfl

/-- C1 is violated by the update path: on a payload carrying both a
completion timestamp and percentComplete 100, the create path derives
COMPLETED but the update path derives IN_PROGRESS, because the
percent-based derivation of lines 269-275 runs unconditionally and
overwrites the COMPLETED assigned at line 265 (steps 2-4 are not
skipped), so the derived status also differs between first creation and a
later update of the same payload.  The completed date itself is stored as
claimed. -/
theorem completed_timestamp_update_bug :
    (create_task_from_data dCompleted "p" 0).status = TaskStatus.COMPLETED ∧
    (update_task_from_data tPrior dCompleted 0).status = TaskStatus.IN_PROGRESS ∧
    (update_task_from_data tPrior dCompleted 0).completed_date = some 50 ∧
    (update_task_from_data tPrior dCompleted 0).status ≠
      (create_task_from_data dCompleted "p" 0).status := by
  decide

/-- C8 is violated on payloads with a completion timestamp: reconciling
`dCompleted` twice creates no duplicate row (the store keeps exactly one
task, keyed by the remote id), but the second pass changes the status
field from COMPLETED to IN_PROGRESS although the payload did not change —
the update-path status slip of lines 269-275. -/
theorem repeat_sync_not_idempotent :
    passOne.1.length = 1 ∧ passTwo.1.length = 1 ∧
    passOne.1.map (fun t => t.status) = [TaskStatus.COMPLETED] ∧
    passTwo.1.map (fun t => t.status) = [TaskStatus.IN_PROGRESS] ∧
    passTwo.1 ≠ passOne.1 := by
  decide

/-- C7: recomputing plan metrics scans exactly the tasks owned by the plan
and writes total, completed, in-progress, not-started, overdue and blocked
counts; the §8 scenario of 10 tasks (4 COMPLETED, 2 OVERDUE with the flag,
1 IN_PROGRESS, 3 NOT_STARTED) yields counters {10, 4, 1, 3, 2}. -/
theorem plan_metrics_recompute :
    (∀ (store : List Task) (pl : Planner),
      (update_planner_metrics store pl).total_tasks =
        (store.filter (fun t => t.planner_id == pl.id)).length ∧
      (update_planner_metrics store pl).completed_tasks =
        ((store.filter (fun t => t.planner_id == pl.id)).filter
          (fun t => t.status == TaskStatus.COMPLETED)).length ∧
      (update_planner_metrics store pl).in_progress_tasks =
        ((store.filter (fun t => t.planner_id == pl.id)).filter
          (fun t => t.status == TaskStatus.IN_PROGRESS)).length ∧
      (update_planner_metrics store pl).not_started_tasks =
        ((store.filter (fun t => t.planner_id == pl.id)).filter
          (fun t => t.status == TaskStatus.NOT_STARTED)).length ∧
      (update_planner_metrics store pl).overdue_tasks =
        ((store.filter (fun t => t.planner_id == pl.id)).filter
          (fun t => t.is_overdue)).length ∧
      (update_planner_metrics store pl).blocked_tasks =
        ((store.filter (fun t => t.planner_id == pl.id)).filter
          (fun t => t.is_blocked)).length) ∧
    update_planner_metrics metricsTasks { id := "P" } =
      { id := "P", total_tasks := 10, completed_tasks := 4, in_progress_tasks := 1,
        not_started_tasks := 3, overdue_tasks := 2, blocked_tasks := 0 } := by
  constructor
  · intro store pl
    simp [update_planner_metrics, List.countP_eq_length_filter]
  · decide

theorem enrichLoop_ok (env : EnrichEnv) (l : List (String × AssignInfo))
    (st : EnrichState) (hnr : ∀ uid, env.lookupUser uid ≠ LookupResult.raised) :
    (enrichLoop env l st).1 =
      Except.ok (l.map (fun p => (p.1, mkEnrichedEntry p.2 (resolvedUser env p.1)))) := by
  induction l generalizing st with
  | nil => rfl
  | cons hd tl ih =>
    obtain ⟨uid, info⟩ := hd
    unfold enrichLoop
    cases hl : env.lookupUser uid with
    | raised => exact absurd hl (hnr uid)
    | found u =>
      dsimp only
      rw [ih st]
      simp [Except.map, resolvedUser, hl]
    | missing =>
      cases hg : env.get_user_details uid with
      | ok ud =>
        dsimp only [hg]
        rw [ih]
        simp [Except.map, resolvedUser, hl, hg]
      | noResult =>
        dsimp only [hg]
        rw [ih]
        simp [Except.map, resolvedUser, hl, hg]
      | raised =>
        dsimp only [hg]
        rw [ih]
        simp [Except.map, resolvedUser, hl, hg]

/-- C2 is violated: for an assignee with no local User record and a 404
directory lookup, whose remote assignment entry does carry fallback
display fields, the entry is nevertheless written with the literal
removed-user marker and empty email — lines 423-428 read only
`assignedDateTime` and `orderHint` from the assignment payload, never its
fallback name or email. -/
theorem enrich_fallback_counterexample :
    (enrich_task_assignees envAbsent tPrior dAssigned {}).1.assignments =
      [("u1", AssignVal.enriched
        { assignedDateTime := "2024-01-01T00:00:00Z", orderHint := "8585",
          userDisplayName := "Usuário (Removido)", userEmail := some "" })] ∧
    dAssigned.assignments.map (fun p => p.2.fallbackDisplayName) = [some "Alice Smith"] ∧
    dAssigned.assignments.map (fun p => p.2.fallbackEmail) = [some "alice@example.com"] ∧
    "Usuário (Removido)" ≠ "Alice Smith" := by
  decide

/-- C2 amended: every assignment entry is rewritten with the assigned
time, the order hint, and either the resolved local User's display name
and email or — whenever no local User is available, including after a 404
directory lookup — the literal removed-user marker with an empty email;
the fallback display fields of the remote assignment payload are never
consulted.  Provided no cache lookup raises, the task's assignment map is
written whenever the payload's map is non-empty, and a 404 directory
lookup never triggers a retry at the gateway. -/
theorem enrich_rewrites_every_entry (env : EnrichEnv) (t : Task) (d : TaskData)
    (st : EnrichState)
    (hnr : ∀ uid, env.lookupUser uid ≠ LookupResult.raised)
    (hne : d.assignments ≠ []) :
    (enrich_task_assignees env t d st).1.assignments =
      d.assignments.map (fun p =>
        (p.1, AssignVal.enriched (mkEnrichedEntry p.2 (resolvedUser env p.1)))) ∧
    (∀ (cfg : GatewayConfig) (outs : Nat → HttpOutcome UserData),
      outs 0 = HttpOutcome.httpError 404 → (make_request cfg outs 0).2.1 = []) := by
  constructor
  · have hok := enrichLoop_ok env d.assignments st hnr
    unfold enrich_task_assignees
    rcases hE : enrichLoop env d.assignments st with ⟨r, st1⟩
    rw [hE] at hok
    dsimp only at hok
    subst hok
    dsimp only
    rw [if_pos]
    · simp [List.map_map, Function.comp]
    · simp [hne]
  · intro cfg outs h
    rw [make_request_404 cfg outs 0 h]

/-- C2 witness: the amended rewrite at a concrete environment (cache miss,
404 directory lookup) and payload with one assignment entry. -/
theorem enrich_rewrites_every_entry_witness :
    (enrich_task_assignees envAbsent tFull dAssigned {}).1.assignments =
      dAssigned.assignments.map (fun p =>
        (p.1, AssignVal.enriched (mkEnrichedEntry p.2 (resolvedUser envAbsent p.1)))) ∧
    (∀ (cfg : GatewayConfig) (outs : Nat → HttpOutcome UserData),
      outs 0 = HttpOutcome.httpError 404 → (make_request cfg outs 0).2.1 = []) :=
  enrich_rewrites_every_entry envAbsent tFull dAssigned {}
    (fun _ => by simp [envAbsent]) (by decide)

/-- C9: identity enrichment never propagates failure.  The embedding of
`_enrich_task_assignees` is total by the outer try/except of lines
377/434: it either returns the task unchanged or with only the assignment
map rewritten; when the loop body signals a raise the task is returned
entirely unchanged (the stored assignment map keeps the value it had
before the call), and the surrounding per-task sync step neither aborts
(its task counter still advances) nor increments the error counter. -/
theorem enrich_failure_isolated (env : EnrichEnv) (t : Task) (d : TaskData)
    (st : EnrichState) :
    ((enrich_task_assignees env t d st).1 = t ∨
      ∃ m, (enrich_task_assignees env t d st).1 = { t with assignments := m }) ∧
    ((enrichLoop env d.assignments st).1 = Except.error () →
      enrich_task_assignees env t d st = (t, (enrichLoop env d.assignments st).2)) ∧
    (∀ (store : List Task) (stats : SyncStats) (pid : String) (now : DateTime),
      (syncOneTask env pid now (store, stats, st) d).2.1.errors = stats.errors ∧
      (syncOneTask env pid now (store, stats, st) d).2.1.tasks = stats.tasks + 1) := by
  refine ⟨?_, ?_, ?_⟩
  · unfold enrich_task_assignees
    rcases hE : enrichLoop env d.assignments st with ⟨r, st1⟩
    cases r with
    | ok m =>
      dsimp only
      by_cases hm : m = []
      · left
        rw [if_neg (by simp [hm])]
      · right
        exact ⟨m.map (fun p => (p.1, AssignVal.enriched p.2)), by rw [if_pos hm]⟩
    | error e => exact Or.inl rfl
  · intro h
    unfold enrich_task_assignees
    rcases hE : enrichLoop env d.assignments st with ⟨r, st1⟩
    rw [hE] at h
    dsimp only at h
    subst h
    rfl
  · intro store stats pid now
    unfold syncOneTask
    dsimp only
    cases findTaskById store d.id <;> exact ⟨rfl, rfl⟩

/-- C9 witness: with a raising cache lookup and a non-empty assignment
map, enrichment returns the task (and its stored map) unchanged, and the
sync step's error counter stays 0 while its task counter advances. -/
theorem enrich_failure_isolated_witness :
    enrich_task_assignees envRaise tFull dAssigned {} =
      (tFull, (enrichLoop envRaise dAssigned.assignments {}).2) ∧
    (syncOneTask envRaise "p" 0 ([tFull], {}, {}) dAssigned).2.1.errors = 0 ∧
    (syncOneTask envRaise "p" 0 ([tFull], {}, {}) dAssigned).2.1.tasks = 1 :=
  ⟨(enrich_failure_isolated envRaise tFull dAssigned {}).2.1 rfl,
   ((enrich_failure_isolated envRaise tFull dAssigned {}).2.2 [tFull] {} "p" 0).1,
   ((enrich_failure_isolated envRaise tFull dAssigned {}).2.2 [tFull] {} "p" 0).2⟩

theorem findPlannerById_id (store : List Planner) (i : String) (p : Planner)
    (h : findPlannerById store i = some p) : p.id = i := by
  unfold findPlannerById at h
  simpa using List.find?_some h

theorem findPlannerById_putPlanner_self (store : List Planner) (p : Planner) :
    findPlannerById (putPlanner store p) p.id = some p := by
  unfold putPlanner findPlannerById
  split
  · rename_i hany
    rw [List.find?_map]
    have hg : ((fun x : Planner => x.id == p.id) ∘
        (fun x => if x.id == p.id then p else x)) = fun x : Planner => x.id == p.id := by
      funext x
      by_cases h : x.id = p.id <;> simp [Function.comp, h]
    rw [hg]
    rw [List.any_eq_true] at hany
    obtain ⟨x, hx, hpx⟩ := hany
    rcases hfind : store.find? (fun x => x.id == p.id) with _ | y
    · rw [List.find?_eq_none] at hfind
      exact absurd hpx (hfind x hx)
    · rw [hfind]
      have hy : y.id = p.id := by simpa using List.find?_some hfind
      simp [hy]
  · rename_i hany
    rw [List.find?_append]
    have h1 : store.find? (fun x : Planner => x.id == p.id) = none := by
      rw [List.find?_eq_none]
      intro x hx hpx
      exact hany (List.any_eq_true.mpr ⟨x, hx, hpx⟩)
    rw [h1]
    simp

theorem findPlannerById_putPlanner_ne (store : List Planner) (p : Planner) (j : String)
    (h : p.id ≠ j) :
    findPlannerById (putPlanner store p) j = findPlannerById store j := by
  unfold putPlanner findPlannerById
  split
  · rw [List.find?_map]
    have hg : ((fun x : Planner => x.id == j) ∘
        (fun x => if x.id == p.id then p else x)) = fun x : Planner => x.id == j := by
      funext x
      by_cases hx : x.id = p.id
      · simp [Function.comp, hx, h]
      · simp [Function.comp, hx]
    rw [hg]
    rcases hfind : store.find? (fun x : Planner => x.id == j) with _ | y
    · simp
    · have hyj : y.id = j := by simpa using List.find?_some hfind
      have hyp : ¬ (y.id = p.id) := by
        rw [hyj]
        exact fun hh => h hh.symm
      simp [hyp]
  · rw [List.find?_append]
    have h2 : List.find? (fun x : Planner => x.id == j) [p] = none := by
      simp [h]
    rw [h2]
    simp

theorem sync_planner_step_raises (live : List Planner) (pd : PlannerData)
    (gid : String) (now : DateTime) :
    (sync_planner_step live pd gid now).2 = upsertRaises pd := by
  unfold sync_planner_step upsertRaises
  cases findPlannerById live pd.id <;>
    rcases pd.createdDateTime with _ | tok <;>
      first
        | rfl
        | (cases tok <;> rfl)

theorem sync_planner_step_frame (live : List Planner) (pd : PlannerData)
    (gid : String) (now : DateTime) (j : String) (hj : pd.id ≠ j) :
    findPlannerById (sync_planner_step live pd gid now).1 j = findPlannerById live j := by
  unfold sync_planner_step
  cases hf : findPlannerById live pd.id with
  | some planner =>
    have hpid : planner.id = pd.id := findPlannerById_id live pd.id planner hf
    rcases pd.createdDateTime with _ | tok
    · dsimp only
      rw [findPlannerById_putPlanner_ne _ _ _ (by simpa [hpid] using hj),
        findPlannerById_putPlanner_ne _ _ _ (by simpa [hpid] using hj)]
    · cases tok
      · dsimp only [parseIso]
        rw [findPlannerById_putPlanner_ne _ _ _ (by simpa [hpid] using hj),
          findPlannerById_putPlanner_ne _ _ _ (by simpa [hpid] using hj)]
      · dsimp only [parseIso]
        rw [findPlannerById_putPlanner_ne _ _ _ (by simpa [hpid] using hj)]
  | none =>
    have happ : ∀ (q : Planner), q.id = pd.id →
        List.find? (fun x : Planner => x.id == j) (live ++ [q]) =
          findPlannerById live j := by
      intro q hq
      rw [List.find?_append]
      have h2 : List.find? (fun x : Planner => x.id == j) [q] = none := by
        simp [hq, hj]
      rw [h2]
      unfold findPlannerById
      simp
    rcases pd.createdDateTime with _ | tok
    · dsimp only
      exact happ _ rfl
    · cases tok
      · dsimp only [parseIso]
        exact happ _ rfl
      · dsimp only [parseIso]

theorem sync_planner_step_partial (live : List Planner) (pd : PlannerData)
    (gid : String) (now : DateTime) (b0 : Planner)
    (hraise : upsertRaises pd = true) (hf : findPlannerById live pd.id = some b0) :
    (sync_planner_step live pd gid now).1 =
      putPlanner live { b0 with title := pd.title.getD b0.title } := by
  have htok : pd.createdDateTime = some DateTok.malformed := by
    simpa [upsertRaises] using hraise
  unfold sync_planner_step
  rw [hf, htok]
  rfl

theorem sync_group_planners_step_ok (gid : String) (now : DateTime)
    (acc : PlannerSession × SyncStats) (pd : PlannerData)
    (h : upsertRaises pd = false) :
    sync_group_planners_step gid now acc pd =
      ({ acc.1 with live := (sync_planner_step acc.1.live pd gid now).1 },
       { acc.2 with planners := acc.2.planners + 1 }) := by
  unfold sync_group_planners_step
  dsimp only
  rw [sync_planner_step_raises, h]
  rfl

theorem sync_group_planners_step_raise (gid : String) (now : DateTime)
    (acc : PlannerSession × SyncStats) (pd : PlannerData)
    (h : upsertRaises pd = true) :
    sync_group_planners_step gid now acc pd =
      ({ acc.1 with live := (sync_planner_step acc.1.live pd gid now).1 },
       { acc.2 with errors := acc.2.errors + 1 }) := by
  unfold sync_group_planners_step
  dsimp only
  rw [sync_planner_step_raises, h]
  rfl

/-- C3 is violated in its rollback part: with three sibling plan payloads
of which B's raises (malformed created date) after the title assignment of
line 185, the loop catches the raise and increments the error counter, but
the final commit persists B's half-applied write — the committed row for B
carries the new title.  The claim says the failing entity's write is
rolled back. -/
theorem plan_rollback_counterexample :
    (sync_group_planners_loop [pdA, pdB, pdC] "g" 5 sessABC {}).2.errors = 1 ∧
    findPlannerById
        (sync_group_planners_loop [pdA, pdB, pdC] "g" 5 sessABC {}).1.committed "B" =
      some { rowB with title := "newB" } ∧
    ({ rowB with title := "newB" } : Planner).title ≠ rowB.title := by
  decide

/-- C3 amended: a raise while reconciling one plan is caught at that
plan's granularity, increments the run's error counter by exactly 1,
and the remaining sibling plans are still processed (the planner counter
advances for each of them); however the failing plan's partial write is
not rolled back — the mutation made before the raise (the title
assignment) remains in the session and is committed together with the
siblings' batch. -/
theorem plan_failure_isolation (sess : PlannerSession) (stats : SyncStats)
    (gid : String) (now : DateTime) (pa pb pc : PlannerData) (b0 : Planner)
    (ha : upsertRaises pa = false) (hb : upsertRaises pb = true)
    (hc : upsertRaises pc = false)
    (hfb : findPlannerById sess.live pb.id = some b0)
    (hab : pa.id ≠ pb.id) (hcb : pc.id ≠ pb.id) :
    (sync_group_planners_loop [pa, pb, pc] gid now sess stats).2.errors = stats.errors + 1 ∧
    (sync_group_planners_loop [pa, pb, pc] gid now sess stats).2.planners = stats.planners + 2 ∧
    findPlannerById
        (sync_group_planners_loop [pa, pb, pc] gid now sess stats).1.committed pb.id =
      some { b0 with title := pb.title.getD b0.title } := by
  have hb0 : b0.id = pb.id := findPlannerById_id _ _ _ hfb
  have f1 : findPlannerById (sync_planner_step sess.live pa gid now).1 pb.id = some b0 := by
    rw [sync_planner_step_frame _ _ _ _ _ hab]
    exact hfb
  have f2 := sync_planner_step_partial (sync_planner_step sess.live pa gid now).1
    pb gid now b0 hb f1
  have f3 : findPlannerById
      (sync_planner_step (sync_planner_step sess.live pa gid now).1 pb gid now).1 pb.id =
      some { b0 with title := pb.title.getD b0.title } := by
    rw [f2, ← hb0]
    exact findPlannerById_putPlanner_self
      (sync_planner_step sess.live pa gid now).1
      ({ b0 with title := pb.title.getD b0.title })
  unfold sync_group_planners_loop
  simp only [List.foldl_cons, List.foldl_nil]
  rw [sync_group_planners_step_ok _ _ _ _ ha,
    sync_group_planners_step_raise _ _ _ _ hb,
    sync_group_planners_step_ok _ _ _ _ hc]
  dsimp only [commitPlanners]
  refine ⟨rfl, ?_, ?_⟩
  · show stats.planners + 1 + 1 = stats.planners + 2
    omega
  · rw [sync_planner_step_frame _ _ _ _ _ hcb]
    exact f3

/-- C3 witness: the amended behaviour at the concrete A/B/C scenario —
error counter 1, both siblings processed, and B's committed row carrying
the half-applied title. -/
theorem plan_failure_isolation_witness :
    (sync_group_planners_loop [pdA, pdB, pdC] "g" 5 sessABC {}).2.errors = 1 ∧
    (sync_group_planners_loop [pdA, pdB, pdC] "g" 5 sessABC {}).2.planners = 2 ∧
    findPlannerById
        (sync_group_planners_loop [pdA, pdB, pdC] "g" 5 sessABC {}).1.committed pdB.id =
      some { rowB with title := pdB.title.getD rowB.title } :=
  plan_failure_isolation sessABC {} "g" 5 pdA pdB pdC rowB
    rfl rfl rfl (by decide) (by decide) (by decide)

end PlannerApp
